import Mathlib

/-!
# ClipPlugin / ClipPluginCreator (customClipPlugin.cpp, customClipPlugin.h)

A shallow embedding of the TensorRT clip plugin and of its creator, and the
properties of the serialized form, of configuration, of execution and of
parameter parsing that are proved about it.

Modelling conventions
* A `float` is its 32-bit pattern (`F32`); NaNs, infinities and negative
  values are ordinary patterns.
* A pointer is the sequence of objects it refers to, indexed from the pointee
  (`Ptr α`).  The source performs no bounds or null checks, and neither does
  the model: only `assert` can stop a function, and a function that contains
  an `assert` returns `Option` (`none` = the assertion failed).
* `size_t` is a natural number below `2 ^ 64`; `int` values are integers and
  are converted to `size_t` modulo `2 ^ 64`.
* A member that a constructor leaves unassigned (`mInputVolume`) is `none`
  until it is assigned.  The two locals that `createPlugin` declares without
  initialiser hold indeterminate patterns, which are parameters of its model.
* The external kernel `clipInference` is a parameter: a function from its
  arguments and the state of the device to a status and a new device state.
-/

namespace ClipPluginModel

/-- The bit pattern of a 32-bit `float`. -/
abbrev F32 := Fin 4294967296

/-- One byte of memory. -/
abbrev Byte := Fin 256

/-- What a pointer refers to: the objects at the pointee and after it. -/
abbrev Ptr (α : Type) := Nat → α

/-- Byte order of the platform. -/
inductive Endian where
  | little
  | big
deriving DecidableEq, Repr

/-- The number of values of `size_t` (64-bit). -/
def SIZE_MAX1 : Nat := 18446744073709551616

/-- The value of `sizeof(float)`. -/
def sizeofFloat : Nat := 4

/-- Byte `k` (0 = least significant) of a 32-bit pattern. -/
def F32.byteLE (v : F32) (k : Nat) : Byte :=
  ⟨(v.val / 256 ^ k) % 256, Nat.mod_lt _ (by decide)⟩

/-- Byte at offset `k` of the object representation of a `float`. -/
def F32.objByte (e : Endian) (v : F32) (k : Nat) : Byte :=
  match e with
  | .little => v.byteLE k
  | .big => v.byteLE (3 - k)

/-- The `float` whose object representation is the four bytes `b 0 .. b 3`. -/
def F32.ofBytes (e : Endian) (b : Ptr Byte) : F32 :=
  match e with
  | .little =>
    ⟨(b 0).val + 256 * (b 1).val + 65536 * (b 2).val + 16777216 * (b 3).val, by omega⟩
  | .big =>
    ⟨(b 3).val + 256 * (b 2).val + 65536 * (b 1).val + 16777216 * (b 0).val, by omega⟩

/-- Embedding of `writeToBuffer<float>(char*& buffer, const float& val)`: memory
`mem` with cursor `buffer`; stores the object at the cursor and advances the
cursor by `sizeof(float)`. -/
def writeToBuffer (e : Endian) (mem : Ptr Byte) (buffer : Nat) (val : F32) : Ptr Byte × Nat :=
  (fun i => if buffer ≤ i ∧ i < buffer + sizeofFloat then val.objByte e (i - buffer) else mem i,
   buffer + sizeofFloat)

/-- Embedding of `readFromBuffer<float>(const char*& buffer)`: loads the object
at the cursor and advances the cursor by `sizeof(float)`. -/
def readFromBuffer (e : Endian) (mem : Ptr Byte) (buffer : Nat) : F32 × Nat :=
  (F32.ofBytes e (fun k => mem (buffer + k)), buffer + sizeofFloat)

/-- The private fields of `class ClipPlugin`. -/
structure ClipPlugin where
  mLayerName : String
  mClipMin : F32
  mClipMax : F32
  /-- Value `none` until `configureWithFormat` assigns it: no constructor
  initialises this member. -/
  mInputVolume : Option Nat
  mNamespace : String
deriving DecidableEq, Repr

/-- Enumeration `nvinfer1::DataType` of NvInfer.h (TensorRT, not part of the
repository). -/
inductive DataType where
  | kFLOAT
  | kHALF
  | kINT8
  | kINT32
  | kBOOL
deriving DecidableEq, Repr

/-- Enumeration `nvinfer1::PluginFormat` (= `TensorFormat`) of NvInfer.h
(TensorRT, not part of the repository). -/
inductive PluginFormat where
  | kLINEAR
  | kCHW2
  | kHWC8
  | kCHW4
  | kCHW16
  | kCHW32
  | kDHWC8
  | kCDHW32
  | kHWC
  | kDLA_LINEAR
  | kDLA_HWC4
  | kHWC16
deriving DecidableEq, Repr

/-- Enumeration `nvinfer1::PluginFieldType` of NvInfer.h (TensorRT, not part
of the repository). -/
inductive PluginFieldType where
  | kFLOAT16
  | kFLOAT32
  | kFLOAT64
  | kINT8
  | kINT16
  | kINT32
  | kCHAR
  | kDIMS
  | kUNKNOWN
deriving DecidableEq, Repr

/-- Class `nvinfer1::Dims` of NvInfer.h: the rank and the array of extents. -/
structure Dims where
  nbDims : Int
  d : Ptr Int

/-- Class `nvinfer1::PluginField` of NvInfer.h: `data` is the memory the
`const void*` refers to. -/
structure PluginField where
  name : String
  data : Ptr Byte
  type : PluginFieldType
  length : Int

/-- Struct `nvinfer1::PluginFieldCollection` of NvInfer.h. -/
structure PluginFieldCollection where
  nbFields : Int
  fields : Ptr PluginField

/-- Conversion of an `int` to `size_t`. -/
def toSizeT (x : Int) : Nat := (x % (SIZE_MAX1 : Int)).toNat

/-- Multiplication `size_t * int` in `size_t`: the `int` operand is converted
to `size_t` and the product wraps. -/
def sizeMul (v : Nat) (x : Int) : Nat := (v * toSizeT x) % SIZE_MAX1

/-- Constant `CLIP_PLUGIN_VERSION`. -/
def CLIP_PLUGIN_VERSION : String := "1"

/-- Constant `CLIP_PLUGIN_NAME`. -/
def CLIP_PLUGIN_NAME : String := "CustomClipPlugin"

/-- Constructor `ClipPlugin::ClipPlugin(name, clipMin, clipMax)`: `mInputVolume`
is not initialised and `mNamespace` is default-constructed. -/
def ClipPlugin.new (name : String) (clipMin clipMax : F32) : ClipPlugin :=
  { mLayerName := name, mClipMin := clipMin, mClipMax := clipMax,
    mInputVolume := none, mNamespace := "" }

/-- Constructor `ClipPlugin::ClipPlugin(name, data, length)`: `a` is the start
of `data` and `d` the read cursor; `none` when `assert(d == (a + length))`
fails. -/
def ClipPlugin.newFromData (e : Endian) (name : String) (data : Ptr Byte) (length : Nat) :
    Option ClipPlugin :=
  let d := 0
  let a := d
  let r1 := readFromBuffer e data d
  let r2 := readFromBuffer e data r1.2
  if r2.2 = a + length then
    some { mLayerName := name, mClipMin := r1.1, mClipMax := r2.1,
           mInputVolume := none, mNamespace := "" }
  else none

/-- Method `ClipPlugin::getPluginType`. -/
def ClipPlugin.getPluginType (_p : ClipPlugin) : String := CLIP_PLUGIN_NAME

/-- Method `ClipPlugin::getPluginVersion`. -/
def ClipPlugin.getPluginVersion (_p : ClipPlugin) : String := CLIP_PLUGIN_VERSION

/-- Method `ClipPlugin::getNbOutputs`. -/
def ClipPlugin.getNbOutputs (_p : ClipPlugin) : Int := 1

/-- Method `ClipPlugin::getOutputDimensions(index, inputs, nbInputDims)`:
`none` when one of the two assertions fails, otherwise `*inputs`. -/
def ClipPlugin.getOutputDimensions (_p : ClipPlugin) (index : Int) (inputs : Ptr Dims)
    (nbInputDims : Int) : Option Dims :=
  if nbInputDims ≠ 1 then none
  else if index ≠ 0 then none
  else some (inputs 0)

/-- Method `ClipPlugin::getWorkspaceSize`. -/
def ClipPlugin.getWorkspaceSize (_p : ClipPlugin) (_maxBatch : Int) : Nat := 0

/-- The arguments of one call of the external `clipInference` (clipKernel.h is
not part of the repository).  Field `n` is the value of the argument
expression `mInputVolume * batchSize`, of type `size_t`; it is `none` when
`mInputVolume` was never assigned. -/
structure KernelArgs where
  stream : Nat
  n : Option Nat
  clipMin : F32
  clipMax : F32
  input : Nat
  output : Nat
deriving DecidableEq, Repr

/-- The external `clipInference`: given its arguments and the state of the
device it returns a status and the new state of the device. -/
abbrev Kernel (σ : Type) := KernelArgs → σ → Int × σ

/-- Method `ClipPlugin::enqueue(batchSize, inputs, outputs, workspace, stream)`
with `clipInference` = `K`.  Returns the status, the plugin after the call and
the device after the call. -/
def ClipPlugin.enqueue {σ : Type} (K : Kernel σ) (p : ClipPlugin) (batchSize : Int)
    (inputs : Ptr Nat) (outputs : Ptr Nat) (_workspace : Nat) (stream : Nat) (dev : σ) :
    Int × ClipPlugin × σ :=
  let status : Int := -1
  let output := outputs 0
  let r := K { stream := stream, n := p.mInputVolume.map (fun v => sizeMul v batchSize),
               clipMin := p.mClipMin, clipMax := p.mClipMax,
               input := inputs 0, output := output } dev
  let status := Function.const Int r.1 status
  (status, p, r.2)

/-- Method `ClipPlugin::getSerializationSize`. -/
def ClipPlugin.getSerializationSize (_p : ClipPlugin) : Nat := 2 * sizeofFloat

/-- Method `ClipPlugin::serialize(buffer)`: `a` is the start of `buffer` and `d`
the write cursor.  Returns the memory after the two writes together with the
final `d`; `none` when `assert(d == a + getSerializationSize())` fails. -/
def ClipPlugin.serialize (e : Endian) (p : ClipPlugin) (buffer : Ptr Byte) :
    Option (Ptr Byte × Nat) :=
  let d := 0
  let a := d
  let w1 := writeToBuffer e buffer d p.mClipMin
  let w2 := writeToBuffer e w1.1 w1.2 p.mClipMax
  if w2.2 = a + p.getSerializationSize then some w2 else none

/-- Method `ClipPlugin::supportsFormat(type, format)`. -/
def ClipPlugin.supportsFormat (_p : ClipPlugin) (type : DataType) (format : PluginFormat) : Bool :=
  if type = DataType.kFLOAT ∧ format = PluginFormat.kLINEAR then true else false

/-- The loop of `configureWithFormat`: `volume *= inputs->d[i]` for
`i = 0 .. nbDims - 1`, starting from `volume = 1`. -/
def inputVolume (s : Dims) : Nat :=
  (List.range s.nbDims.toNat).foldl (fun volume i => sizeMul volume (s.d i)) 1

/-- Method `ClipPlugin::configureWithFormat(inputs, nbInputs, outputs,
nbOutputs, type, format, maxBatchSize)`: `none` when one of the three
assertions fails, otherwise the plugin with `mInputVolume` assigned. -/
def ClipPlugin.configureWithFormat (p : ClipPlugin) (inputs : Ptr Dims) (_nbInputs : Int)
    (_outputs : Ptr Dims) (nbOutputs : Int) (type : DataType) (format : PluginFormat)
    (_maxBatchSize : Int) : Option ClipPlugin :=
  if nbOutputs ≠ 1 then none
  else if type ≠ DataType.kFLOAT then none
  else if format ≠ PluginFormat.kLINEAR then none
  else some { p with mInputVolume := some (inputVolume (inputs 0)) }

/-- Method `ClipPlugin::setPluginNamespace`. -/
def ClipPlugin.setPluginNamespace (p : ClipPlugin) (libNamespace : String) : ClipPlugin :=
  { p with mNamespace := libNamespace }

/-- Method `ClipPlugin::getPluginNamespace`. -/
def ClipPlugin.getPluginNamespace (p : ClipPlugin) : String := p.mNamespace

/-- Method `ClipPlugin::clone`. -/
def ClipPlugin.clone (p : ClipPlugin) : ClipPlugin :=
  let plugin := ClipPlugin.new p.mLayerName p.mClipMin p.mClipMax
  plugin.setPluginNamespace p.mNamespace

/-- The non-static field of `class ClipPluginCreator`. -/
structure ClipPluginCreator where
  mNamespace : String

/-- Method `ClipPluginCreator::getPluginName`. -/
def ClipPluginCreator.getPluginName (_c : ClipPluginCreator) : String := CLIP_PLUGIN_NAME

/-- Method `ClipPluginCreator::getPluginVersion`. -/
def ClipPluginCreator.getPluginVersion (_c : ClipPluginCreator) : String := CLIP_PLUGIN_VERSION

/-- One iteration of the loop of `createPlugin` on `fields[i]`; the state is
the pair of locals `(clipMin, clipMax)`, and `none` is a failed assertion. -/
def createPluginStep (e : Endian) (fields : Ptr PluginField) (acc : F32 × F32) (i : Nat) :
    Option (F32 × F32) :=
  if (fields i).name = "clipMin" then
    if (fields i).type = PluginFieldType.kFLOAT32 then
      some (F32.ofBytes e (fields i).data, acc.2)
    else none
  else if (fields i).name = "clipMax" then
    if (fields i).type = PluginFieldType.kFLOAT32 then
      some (acc.1, F32.ofBytes e (fields i).data)
    else none
  else some acc

/-- Method `ClipPluginCreator::createPlugin(name, fc)`.  The locals `clipMin`
and `clipMax` are declared without initialiser: `uninitMin` and `uninitMax`
are the indeterminate patterns they hold before the loop. -/
def ClipPluginCreator.createPlugin (_c : ClipPluginCreator) (e : Endian) (name : String)
    (fc : PluginFieldCollection) (uninitMin uninitMax : F32) : Option ClipPlugin :=
  let fields := fc.fields
  if fc.nbFields ≠ 2 then none
  else
    match (List.range fc.nbFields.toNat).foldlM (createPluginStep e fields)
        (uninitMin, uninitMax) with
    | none => none
    | some (clipMin, clipMax) => some (ClipPlugin.new name clipMin clipMax)

/-- Method `ClipPluginCreator::deserializePlugin(name, serialData,
serialLength)`. -/
def ClipPluginCreator.deserializePlugin (_c : ClipPluginCreator) (e : Endian) (name : String)
    (serialData : Ptr Byte) (serialLength : Nat) : Option ClipPlugin :=
  ClipPlugin.newFromData e name serialData serialLength

/-- Method `ClipPluginCreator::setPluginNamespace`. -/
def ClipPluginCreator.setPluginNamespace (_c : ClipPluginCreator) (libNamespace : String) :
    ClipPluginCreator :=
  { mNamespace := libNamespace }

/-- Method `ClipPluginCreator::getPluginNamespace`. -/
def ClipPluginCreator.getPluginNamespace (c : ClipPluginCreator) : String := c.mNamespace

/-- The static members `mFC` and `mPluginAttributes` of `ClipPluginCreator`,
shared by all creators of the process. -/
structure CreatorStatics where
  mFC : PluginFieldCollection
  mPluginAttributes : List PluginField

/-- The pointee of a null `const void*`; no operation of the creator on its own
descriptors reads it. -/
def nullData : Ptr Byte := fun _ => 0

/-- The value of `std::vector<PluginField>::data()`: the elements of the vector
from index 0 (a default-constructed `PluginField` beyond its size). -/
def vectorData (v : List PluginField) : Ptr PluginField :=
  fun i => v.getD i { name := "", data := nullData, type := PluginFieldType.kUNKNOWN, length := 0 }

/-- The static members after static initialisation (`mFC{}` and an empty
vector), before any creator is constructed. -/
def CreatorStatics.init : CreatorStatics :=
  { mFC := { nbFields := 0, fields := vectorData [] }, mPluginAttributes := [] }

/-- Constructor `ClipPluginCreator::ClipPluginCreator()`: appends the two
descriptors to the shared vector and refreshes `mFC` from it. -/
def ClipPluginCreator.new (s : CreatorStatics) : ClipPluginCreator × CreatorStatics :=
  let attrs := s.mPluginAttributes ++
    [{ name := "clipMin", data := nullData, type := PluginFieldType.kFLOAT32, length := 1 }]
  let attrs := attrs ++
    [{ name := "clipMax", data := nullData, type := PluginFieldType.kFLOAT32, length := 1 }]
  ({ mNamespace := "" },
   { mFC := { nbFields := attrs.length, fields := vectorData attrs }, mPluginAttributes := attrs })

/-- Method `ClipPluginCreator::getFieldNames`. -/
def ClipPluginCreator.getFieldNames (_c : ClipPluginCreator) (s : CreatorStatics) :
    PluginFieldCollection := s.mFC

/-! ### Callers of the plugin used to state the properties -/

/-- A kernel that also records the arguments of every call it receives, in
call order. -/
def recording {σ : Type} (K : Kernel σ) : Kernel (List KernelArgs × σ) :=
  fun args st => ((K args st.2).1, (st.1 ++ [args], (K args st.2).2))

/-- The host calling `enqueue` once per batch size of `batches`, in order, on
the same plugin and the same buffers. -/
def runEnqueues {σ : Type} (K : Kernel σ) (p : ClipPlugin) (batches : List Int)
    (inputs outputs : Ptr Nat) (stream : Nat) (dev : σ) : ClipPlugin × σ :=
  batches.foldl (fun st b => (st.1.enqueue K b inputs outputs 0 stream st.2).2) (p, dev)

/-- The memory holding the object representation of the `float` `a`. -/
def floatData (e : Endian) (a : F32) : Ptr Byte := fun k => a.objByte e k

/-- A parameter entry `(name, float32, a)` with one value. -/
def floatField (e : Endian) (name : String) (a : F32) : PluginField :=
  { name := name, data := floatData e a, type := PluginFieldType.kFLOAT32, length := 1 }

/-- The parameter list with the entries of `l`, in order. -/
def fieldCollection (l : List PluginField) : PluginFieldCollection :=
  { nbFields := l.length, fields := vectorData l }

/-- The product `d[0] * ... * d[nbDims - 1]` of the extents of a shape, as an
integer (1 for rank 0). -/
def dimsProduct (s : Dims) : Int :=
  ((List.range s.nbDims.toNat).map s.d).prod

/-- A shape given by the list of its extents. -/
def shapeOf (l : List Int) : Dims := { nbDims := l.length, d := fun i => l.getD i 0 }

/-- Method `ClipPlugin::configureWithFormat` together with the state of the
plugin at the point where the call stops: `(false, q)` when an assertion
fails, `q` being the plugin as that assertion found it, and `(true, q)` when
the call returns, `q` being the plugin after the assignment. -/
def ClipPlugin.configureWithFormatAt (p : ClipPlugin) (inputs : Ptr Dims) (_nbInputs : Int)
    (_outputs : Ptr Dims) (nbOutputs : Int) (type : DataType) (format : PluginFormat)
    (_maxBatchSize : Int) : Bool × ClipPlugin :=
  if nbOutputs ≠ 1 then (false, p)
  else if type ≠ DataType.kFLOAT then (false, p)
  else if format ≠ PluginFormat.kLINEAR then (false, p)
  else (true, { p with mInputVolume := some (inputVolume (inputs 0)) })

/-- One call of the host on a plugin, with its arguments. -/
inductive Op where
  | configure (inputs : Ptr Dims) (nbInputs : Int) (outputs : Ptr Dims) (nbOutputs : Int)
      (type : DataType) (format : PluginFormat) (maxBatchSize : Int)
  | execute (batchSize : Int) (inputs outputs : Ptr Nat) (workspace stream : Nat)
  | serialize (e : Endian) (buffer : Ptr Byte)
  | getSerializationSize
  | supportsFormat (type : DataType) (format : PluginFormat)
  | getOutputDimensions (index : Int) (inputs : Ptr Dims) (nbInputDims : Int)
  | clone
  | setPluginNamespace (libNamespace : String)
  | getPluginNamespace

/-- The effect of one call on the plugin and on the device: whether the call
returned (`false` = an assertion failed) and the plugin and device it left.
The `const` methods and `getOutputDimensions` assign no member. -/
def applyOp {σ : Type} (K : Kernel σ) (st : ClipPlugin × σ) : Op → Bool × (ClipPlugin × σ)
  | .configure inputs nbInputs outputs nbOutputs type format maxBatchSize =>
    ((st.1.configureWithFormatAt inputs nbInputs outputs nbOutputs type format maxBatchSize).1,
     ((st.1.configureWithFormatAt inputs nbInputs outputs nbOutputs type format maxBatchSize).2,
      st.2))
  | .execute batchSize inputs outputs workspace stream =>
    (true, (st.1.enqueue K batchSize inputs outputs workspace stream st.2).2)
  | .serialize e buffer => ((st.1.serialize e buffer).isSome, st)
  | .getSerializationSize => (true, st)
  | .supportsFormat _ _ => (true, st)
  | .getOutputDimensions index inputs nbInputDims =>
    ((st.1.getOutputDimensions index inputs nbInputDims).isSome, st)
  | .clone => (true, st)
  | .setPluginNamespace libNamespace => (true, (st.1.setPluginNamespace libNamespace, st.2))
  | .getPluginNamespace => (true, st)

/-- The host making the calls of `ops` in order on the same plugin; the run
stops at the first call that fails an assertion.  Returns whether every call
returned, and the plugin and device where the run stopped. -/
def runOps {σ : Type} (K : Kernel σ) (st : ClipPlugin × σ) : List Op → Bool × (ClipPlugin × σ)
  | [] => (true, st)
  | op :: rest =>
    if (applyOp K st op).1 then runOps K (applyOp K st op).2 rest
    else (false, (applyOp K st op).2)

/-- The static members after `n` constructions of a `ClipPluginCreator` in the
process. -/
def staticsAfter : Nat → CreatorStatics
  | 0 => CreatorStatics.init
  | n + 1 => (ClipPluginCreator.new (staticsAfter n)).2

/-- The name, declared type and count of a descriptor. -/
def PluginField.descriptor (f : PluginField) : String × PluginFieldType × Int :=
  (f.name, f.type, f.length)

/-! ### Lemmas on the encoding -/

theorem F32.ofBytes_objByte (e : Endian) (v : F32) : F32.ofBytes e (fun k => v.objByte e k) = v := by
  cases e <;>
  · apply Fin.ext
    have h := v.isLt
    simp only [F32.ofBytes, F32.objByte, F32.byteLE]
    omega

theorem F32.ofBytes_congr (e : Endian) (b c : Ptr Byte) (h : ∀ k, k < 4 → b k = c k) :
    F32.ofBytes e b = F32.ofBytes e c := by
  cases e <;> simp [F32.ofBytes, h 0, h 1, h 2, h 3]

theorem F32.ofBytes_of_objByte (e : Endian) (v : F32) (b : Ptr Byte)
    (h : ∀ k, k < 4 → b k = v.objByte e k) : F32.ofBytes e b = v := by
  rw [F32.ofBytes_congr e b (fun k => v.objByte e k) h, F32.ofBytes_objByte]

theorem serialize_eq (e : Endian) (p : ClipPlugin) (buffer : Ptr Byte) :
    p.serialize e buffer =
      some (fun i => if 4 ≤ i ∧ i < 8 then p.mClipMax.objByte e (i - 4)
                     else if i < 4 then p.mClipMin.objByte e i else buffer i, 8) := by
  simp [ClipPlugin.serialize, writeToBuffer, sizeofFloat, ClipPlugin.getSerializationSize]

theorem newFromData_eq (e : Endian) (name : String) (data : Ptr Byte) (length : Nat) :
    ClipPlugin.newFromData e name data length =
      if length = 8 then
        some { mLayerName := name, mClipMin := F32.ofBytes e data,
               mClipMax := F32.ofBytes e (fun k => data (4 + k)),
               mInputVolume := none, mNamespace := "" }
      else none := by
  simp only [ClipPlugin.newFromData, readFromBuffer, sizeofFloat, Nat.zero_add]
  by_cases h : length = 8
  · simp [h]
  · have h8 : ¬ (8 = length) := fun h8 => h h8.symm
    simp [h, h8]

/-! ### The serialized form -/

/-- Claim C1 (round trip): for every byte order, every pair of 32-bit patterns
`a`, `b`, every layer name and every buffer, `serialize` on
`ClipPlugin(name, a, b)` succeeds with its cursor at 8, and
`deserializePlugin` on the bytes written, with length 8, succeeds and yields a
plugin whose `mClipMin` is `a` and whose `mClipMax` is `b` (it is the plugin
the bounds constructor builds for the name given at deserialization). -/
theorem C1_serialize_deserialize_roundtrip (e : Endian) (c : ClipPluginCreator)
    (name name2 : String) (a b : F32) (buffer : Ptr Byte) :
    ∃ m q, (ClipPlugin.new name a b).serialize e buffer = some (m, 8) ∧
      c.deserializePlugin e name2 m 8 = some q ∧
      q.mClipMin = a ∧ q.mClipMax = b ∧ q = ClipPlugin.new name2 a b := by
  refine ⟨_, ClipPlugin.new name2 a b, serialize_eq e _ buffer, ?_, rfl, rfl, rfl⟩
  simp only [ClipPluginCreator.deserializePlugin, newFromData_eq, if_true, ClipPlugin.new]
  have h1 : F32.ofBytes e (fun i => if 4 ≤ i ∧ i < 8 then b.objByte e (i - 4)
      else if i < 4 then a.objByte e i else buffer i) = a := by
    apply F32.ofBytes_of_objByte
    intro k hk
    have : ¬ (4 ≤ k ∧ k < 8) := by omega
    simp [this, hk]
  have h2 : F32.ofBytes e (fun k => (fun i => if 4 ≤ i ∧ i < 8 then b.objByte e (i - 4)
      else if i < 4 then a.objByte e i else buffer i) (4 + k)) = b := by
    apply F32.ofBytes_of_objByte
    intro k hk
    have : 4 ≤ 4 + k ∧ 4 + k < 8 := by omega
    simp [this]
  rw [h1, h2]

/-- Claim C2: for every plugin, byte order and buffer, `getSerializationSize`
is 8 and `serialize` succeeds (its final assertion holds) with the write
cursor exactly `getSerializationSize()` bytes after the start of the buffer. -/
theorem C2_serialization_size_and_cursor (e : Endian) (p : ClipPlugin) (buffer : Ptr Byte) :
    p.getSerializationSize = 8 ∧
    ∃ m, p.serialize e buffer = some (m, 0 + p.getSerializationSize) := by
  exact ⟨rfl, _, serialize_eq e p buffer⟩

/-- Claim C3: for every plugin, byte order and buffer, after `serialize` the
bytes at offsets 0..3 are the object representation of `mClipMin`, the bytes
at offsets 4..7 that of `mClipMax`, and every byte at offset 8 or beyond is
the byte the buffer held before. -/
theorem C3_serialize_layout_and_frame (e : Endian) (p : ClipPlugin) (buffer : Ptr Byte) :
    ∃ m d, p.serialize e buffer = some (m, d) ∧
      (∀ k, k < 4 → m k = p.mClipMin.objByte e k) ∧
      (∀ k, k < 4 → m (4 + k) = p.mClipMax.objByte e k) ∧
      F32.ofBytes e m = p.mClipMin ∧
      F32.ofBytes e (fun k => m (4 + k)) = p.mClipMax ∧
      (∀ i, 8 ≤ i → m i = buffer i) := by
  have hlo : ∀ k, k < 4 → (fun i => if 4 ≤ i ∧ i < 8 then p.mClipMax.objByte e (i - 4)
      else if i < 4 then p.mClipMin.objByte e i else buffer i) k = p.mClipMin.objByte e k := by
    intro k hk
    have : ¬ (4 ≤ k ∧ k < 8) := by omega
    simp [this, hk]
  have hhi : ∀ k, k < 4 → (fun i => if 4 ≤ i ∧ i < 8 then p.mClipMax.objByte e (i - 4)
      else if i < 4 then p.mClipMin.objByte e i else buffer i) (4 + k)
        = p.mClipMax.objByte e k := by
    intro k hk
    have : 4 ≤ 4 + k ∧ 4 + k < 8 := by omega
    simp [this]
  refine ⟨_, _, serialize_eq e p buffer, hlo, hhi, ?_, ?_, ?_⟩
  · exact F32.ofBytes_of_objByte e _ _ hlo
  · exact F32.ofBytes_of_objByte e _ _ hhi
  · intro i hi
    have h1 : ¬ (4 ≤ i ∧ i < 8) := by omega
    have h2 : ¬ (i < 4) := by omega
    simp [h1, h2]

/-- Claim C4: construction from bytes, reached through `deserializePlugin`,
succeeds exactly when the length is 8: for every byte order, buffer and
length the result is `none` (the length assertion failed, no plugin) when the
length differs from 8, and for length 8 it is the plugin whose `mClipMin` is
decoded from bytes 0..3 and whose `mClipMax` is decoded from bytes 4..7. -/
theorem C4_deserialize_accepts_iff_length_8 (e : Endian) (c : ClipPluginCreator) (name : String)
    (data : Ptr Byte) (length : Nat) :
    ((c.deserializePlugin e name data length).isSome ↔ length = 8) ∧
    c.deserializePlugin e name data length =
      (if length = 8 then
        some { mLayerName := name, mClipMin := F32.ofBytes e data,
               mClipMax := F32.ofBytes e (fun k => data (4 + k)),
               mInputVolume := none, mNamespace := "" }
      else none) ∧
    c.deserializePlugin e name data length = ClipPlugin.newFromData e name data length := by
  refine ⟨?_, newFromData_eq e name data length, rfl⟩
  simp only [ClipPluginCreator.deserializePlugin, newFromData_eq]
  by_cases h : length = 8 <;> simp [h]

/-! ### Execution and configuration -/

/-- Claim C5: for every kernel, plugin, batch size, buffers, stream and device
state, `enqueue` is one call of the kernel with the arguments
`(stream, mInputVolume * batchSize, mClipMin, mClipMax, inputs[0], outputs[0])`:
it returns the status of that call unchanged (so -1 only when the kernel
returned -1), leaves the plugin as it was and the device as that call left it,
and a recording kernel has received exactly that one call more. -/
theorem C5_enqueue_is_one_kernel_call {σ : Type} (K : Kernel σ) (p : ClipPlugin)
    (batchSize : Int) (inputs outputs : Ptr Nat) (workspace stream : Nat) (dev : σ)
    (log : List KernelArgs) :
    p.enqueue K batchSize inputs outputs workspace stream dev =
      ((K { stream := stream, n := p.mInputVolume.map (fun v => sizeMul v batchSize),
            clipMin := p.mClipMin, clipMax := p.mClipMax,
            input := inputs 0, output := outputs 0 } dev).1,
       p,
       (K { stream := stream, n := p.mInputVolume.map (fun v => sizeMul v batchSize),
            clipMin := p.mClipMin, clipMax := p.mClipMax,
            input := inputs 0, output := outputs 0 } dev).2) ∧
    (p.enqueue (recording K) batchSize inputs outputs workspace stream (log, dev)).2.2.1 =
      log ++ [{ stream := stream, n := p.mInputVolume.map (fun v => sizeMul v batchSize),
                clipMin := p.mClipMin, clipMax := p.mClipMax,
                input := inputs 0, output := outputs 0 }] ∧
    (p.enqueue (recording K) batchSize inputs outputs workspace stream (log, dev)).1 =
      (p.enqueue K batchSize inputs outputs workspace stream dev).1 := by
  exact ⟨rfl, rfl, rfl⟩

theorem toSizeT_of_nonneg (x : Int) (h : 0 ≤ x) : toSizeT x = x.toNat % SIZE_MAX1 := by
  unfold toSizeT SIZE_MAX1
  omega

theorem sizeMul_of_nonneg (v : Nat) (x : Int) (h : 0 ≤ x) :
    sizeMul v x = (v * x.toNat) % SIZE_MAX1 := by
  unfold sizeMul
  rw [toSizeT_of_nonneg x h, Nat.mul_mod, Nat.mod_mod, ← Nat.mul_mod]

theorem sizeMul_lt (v : Nat) (x : Int) : sizeMul v x < SIZE_MAX1 :=
  Nat.mod_lt _ (by decide)

theorem toNat_mul_of_nonneg (x y : Int) (hx : 0 ≤ x) (hy : 0 ≤ y) :
    (x * y).toNat = x.toNat * y.toNat := by
  have h : (((x * y).toNat : Nat) : Int) = ((x.toNat * y.toNat : Nat) : Int) := by
    rw [Nat.cast_mul, Int.toNat_of_nonneg (mul_nonneg hx hy), Int.toNat_of_nonneg hx,
      Int.toNat_of_nonneg hy]
  exact_mod_cast h

theorem prod_map_nonneg (d : Ptr Int) (l : List Nat) (h : ∀ i ∈ l, 0 ≤ d i) :
    0 ≤ (l.map d).prod := by
  induction l with
  | nil => simp
  | cons i l ih =>
    simp only [List.map_cons, List.prod_cons]
    exact mul_nonneg (h i (List.mem_cons_self _ _))
      (ih (fun j hj => h j (List.mem_cons_of_mem _ hj)))

theorem foldl_sizeMul_mod (d : Ptr Int) (l : List Nat) (h : ∀ i ∈ l, 0 ≤ d i) (v0 : Nat) :
    l.foldl (fun volume i => sizeMul volume (d i)) v0 % SIZE_MAX1 =
      (v0 * ((l.map d).prod).toNat) % SIZE_MAX1 := by
  induction l generalizing v0 with
  | nil => simp
  | cons i l ih =>
    have hi : 0 ≤ d i := h i (List.mem_cons_self _ _)
    have hl : ∀ j ∈ l, 0 ≤ d j := fun j hj => h j (List.mem_cons_of_mem _ hj)
    have hp : 0 ≤ (l.map d).prod := prod_map_nonneg d l hl
    simp only [List.foldl_cons, List.map_cons, List.prod_cons]
    rw [ih hl, sizeMul_of_nonneg _ _ hi, toNat_mul_of_nonneg _ _ hi hp, Nat.mul_mod, Nat.mod_mod,
      ← Nat.mul_mod, Nat.mul_assoc]

theorem foldl_sizeMul_lt (d : Ptr Int) (l : List Nat) (v0 : Nat) (h0 : v0 < SIZE_MAX1) :
    l.foldl (fun volume i => sizeMul volume (d i)) v0 < SIZE_MAX1 := by
  induction l generalizing v0 with
  | nil => simpa using h0
  | cons i l ih =>
    simp only [List.foldl_cons]
    exact ih _ (sizeMul_lt _ _)

theorem inputVolume_lt (s : Dims) : inputVolume s < SIZE_MAX1 :=
  foldl_sizeMul_lt s.d _ 1 (by decide)

theorem inputVolume_eq_product (s : Dims) (hnonneg : ∀ i, i < s.nbDims.toNat → 0 ≤ s.d i)
    (hfits : dimsProduct s < (SIZE_MAX1 : Int)) : inputVolume s = (dimsProduct s).toNat := by
  have hmem : ∀ i ∈ List.range s.nbDims.toNat, 0 ≤ s.d i :=
    fun i hi => hnonneg i (List.mem_range.mp hi)
  have h1 := foldl_sizeMul_mod s.d (List.range s.nbDims.toNat) hmem 1
  have h2 : inputVolume s % SIZE_MAX1 = inputVolume s := Nat.mod_eq_of_lt (inputVolume_lt s)
  have h3 : (dimsProduct s).toNat < SIZE_MAX1 := by
    have := prod_map_nonneg s.d (List.range s.nbDims.toNat) hmem
    unfold dimsProduct at hfits ⊢
    omega
  unfold inputVolume at h2 ⊢
  rw [← h2, h1, Nat.one_mul]
  exact Nat.mod_eq_of_lt h3

/-- Claim C6: when the preconditions of `configureWithFormat` hold (one
output, `kFLOAT`, `kLINEAR`), for every first input shape whose extents
`d[0..nbDims-1]` are non-negative and whose product is below `2 ^ 64`, the
call succeeds and assigns that product to `mInputVolume` (1 for rank 0),
changing no other field; `nbInputs`, the output shapes and `maxBatchSize` do
not occur in the result. -/
theorem C6_configure_volume_is_product (p : ClipPlugin) (inputs outputs : Ptr Dims)
    (nbInputs maxBatchSize : Int)
    (hnonneg : ∀ i, i < (inputs 0).nbDims.toNat → 0 ≤ (inputs 0).d i)
    (hfits : dimsProduct (inputs 0) < (SIZE_MAX1 : Int)) :
    p.configureWithFormat inputs nbInputs outputs 1 DataType.kFLOAT PluginFormat.kLINEAR
        maxBatchSize
      = some { p with mInputVolume := some (dimsProduct (inputs 0)).toNat } ∧
    (((dimsProduct (inputs 0)).toNat : Nat) : Int) = dimsProduct (inputs 0) := by
  constructor
  · simp [ClipPlugin.configureWithFormat, inputVolume_eq_product (inputs 0) hnonneg hfits]
  · apply Int.toNat_of_nonneg
    exact prod_map_nonneg _ _ (fun i hi => hnonneg i (List.mem_range.mp hi))

/-- Witness of C6: the shape `[2, 3, 4]` gives the volume 24, and a rank-0
shape would give 1. -/
theorem C6_configure_volume_is_product_witness :
    (∀ i, i < (shapeOf [2, 3, 4]).nbDims.toNat → 0 ≤ (shapeOf [2, 3, 4]).d i) ∧
    dimsProduct (shapeOf [2, 3, 4]) < (SIZE_MAX1 : Int) ∧
    dimsProduct (shapeOf [2, 3, 4]) = 24 ∧
    (ClipPlugin.new "clip" 0 1).configureWithFormat (fun _ => shapeOf [2, 3, 4]) 1
        (fun _ => shapeOf [7]) 1 DataType.kFLOAT PluginFormat.kLINEAR 8
      = some { ClipPlugin.new "clip" 0 1 with
                mInputVolume := some (dimsProduct (shapeOf [2, 3, 4])).toNat } :=
  ⟨by decide, by decide, by decide,
   (C6_configure_volume_is_product (ClipPlugin.new "clip" 0 1) (fun _ => shapeOf [2, 3, 4])
      (fun _ => shapeOf [7]) 1 8 (by decide) (by decide)).1⟩

theorem runEnqueues_recording {σ : Type} (K : Kernel σ) (p : ClipPlugin) (batches : List Int)
    (inputs outputs : Ptr Nat) (stream : Nat) (log : List KernelArgs) (dev : σ) :
    (runEnqueues (recording K) p batches inputs outputs stream (log, dev)).1 = p ∧
    (runEnqueues (recording K) p batches inputs outputs stream (log, dev)).2.1.map KernelArgs.n =
      log.map KernelArgs.n ++
        batches.map (fun b => p.mInputVolume.map (fun v => sizeMul v b)) := by
  induction batches generalizing log dev with
  | nil => simp [runEnqueues]
  | cons b bs ih =>
    have step : runEnqueues (recording K) p (b :: bs) inputs outputs stream (log, dev) =
        runEnqueues (recording K) p bs inputs outputs stream
          (log ++ [{ stream := stream, n := p.mInputVolume.map (fun v => sizeMul v b),
                     clipMin := p.mClipMin, clipMax := p.mClipMax,
                     input := inputs 0, output := outputs 0 }],
           (K { stream := stream, n := p.mInputVolume.map (fun v => sizeMul v b),
                clipMin := p.mClipMin, clipMax := p.mClipMax,
                input := inputs 0, output := outputs 0 } dev).2) := rfl
    rw [step]
    refine ⟨(ih _ _).1, ?_⟩
    rw [(ih _ _).2]
    simp

/-- Counterexample to C7 as stated: a plugin configured with the shape
`[2^30, 2^30, 4]` has `mInputVolume = 2^62`; `enqueue` with `batchSize = 4`
then passes the element count 0 to the kernel, not `4 * 2^62`. -/
theorem C7_count_wraps_counterexample :
    (ClipPlugin.new "clip" 0 0).configureWithFormat
        (fun _ => shapeOf [1073741824, 1073741824, 4]) 1
        (fun _ => shapeOf [1073741824, 1073741824, 4]) 1
        DataType.kFLOAT PluginFormat.kLINEAR 4
      = some { ClipPlugin.new "clip" 0 0 with mInputVolume := some 4611686018427387904 } ∧
    (runEnqueues (recording (fun _ (u : Unit) => ((0 : Int), u)))
        { ClipPlugin.new "clip" 0 0 with mInputVolume := some 4611686018427387904 }
        [4] (fun _ => 0) (fun _ => 0) 0 ([], ())).2.1.map KernelArgs.n = [some 0] ∧
    (runEnqueues (recording (fun _ (u : Unit) => ((0 : Int), u)))
        { ClipPlugin.new "clip" 0 0 with mInputVolume := some 4611686018427387904 }
        [4] (fun _ => 0) (fun _ => 0) 0 ([], ())).2.1.map KernelArgs.n
      ≠ [some (4 * 4611686018427387904)] := by
  refine ⟨by decide, by decide, by decide⟩

/-- Claim C7 as amended: `enqueue` changes no field of the plugin, so after one
successful `configureWithFormat`, which leaves the volume `V` of the first
input shape in `mInputVolume`, any number of `enqueue` calls with non-negative
batch sizes, in any order and with no further configuration, leaves the plugin
as configured and passes to the kernel, call by call, the element count
`(V * batchSize) mod 2 ^ 64`; that count is `V * batchSize` whenever
`V * batchSize < 2 ^ 64` (so `V` for batch size 1, and `4 * V` for batch size
4 when `4 * V < 2 ^ 64`). -/
theorem C7_enqueue_counts_after_configure {σ : Type} (K : Kernel σ) (q p : ClipPlugin)
    (shapes outShapes : Ptr Dims) (nbInputs nbOutputs maxBatchSize : Int) (type : DataType)
    (format : PluginFormat) (batches : List Int) (inputs outputs : Ptr Nat) (stream : Nat)
    (dev : σ)
    (hconf : q.configureWithFormat shapes nbInputs outShapes nbOutputs type format maxBatchSize
      = some p)
    (hbatch : ∀ b ∈ batches, 0 ≤ b) :
    p.mInputVolume = some (inputVolume (shapes 0)) ∧
    (runEnqueues (recording K) p batches inputs outputs stream ([], dev)).1 = p ∧
    (runEnqueues (recording K) p batches inputs outputs stream ([], dev)).2.1.map KernelArgs.n =
      batches.map (fun b => some ((inputVolume (shapes 0) * b.toNat) % SIZE_MAX1)) ∧
    (∀ b ∈ batches, inputVolume (shapes 0) * b.toNat < SIZE_MAX1 →
      (inputVolume (shapes 0) * b.toNat) % SIZE_MAX1 = inputVolume (shapes 0) * b.toNat) ∧
    (inputVolume (shapes 0) * (1 : Int).toNat) % SIZE_MAX1 = inputVolume (shapes 0) := by
  have hv : p.mInputVolume = some (inputVolume (shapes 0)) := by
    unfold ClipPlugin.configureWithFormat at hconf
    split_ifs at hconf
    simp only [Option.some.injEq] at hconf
    rw [← hconf]
  refine ⟨hv, (runEnqueues_recording K p batches inputs outputs stream [] dev).1, ?_, ?_, ?_⟩
  · rw [(runEnqueues_recording K p batches inputs outputs stream [] dev).2, hv]
    simp only [List.map_nil, List.nil_append, Option.map_some']
    apply List.map_congr_left
    intro b hb
    rw [sizeMul_of_nonneg _ _ (hbatch b hb)]
  · intro b _ hlt
    exact Nat.mod_eq_of_lt hlt
  · simp only [Int.toNat_one, Nat.mul_one]
    exact Nat.mod_eq_of_lt (inputVolume_lt _)

/-- Witness of C7 as amended: after configuration with the shape `[2, 3]`
(volume 6) the calls with batch sizes 1 and 4 pass the counts 6 and 24. -/
theorem C7_enqueue_counts_after_configure_witness :
    (ClipPlugin.new "clip" 0 1).configureWithFormat (fun _ => shapeOf [2, 3]) 1
        (fun _ => shapeOf [2, 3]) 1 DataType.kFLOAT PluginFormat.kLINEAR 4
      = some { ClipPlugin.new "clip" 0 1 with mInputVolume := some 6 } ∧
    (∀ b ∈ [(1 : Int), 4], 0 ≤ b) ∧
    (runEnqueues (recording (fun _ (u : Unit) => ((0 : Int), u)))
        { ClipPlugin.new "clip" 0 1 with mInputVolume := some 6 }
        [1, 4] (fun _ => 0) (fun _ => 0) 0 ([], ())).2.1.map KernelArgs.n =
      [(1 : Int), 4].map
        (fun b => some ((inputVolume (shapeOf [2, 3]) * b.toNat) % SIZE_MAX1)) :=
  ⟨by decide, by decide,
   (C7_enqueue_counts_after_configure (fun _ (u : Unit) => ((0 : Int), u))
      (ClipPlugin.new "clip" 0 1) { ClipPlugin.new "clip" 0 1 with mInputVolume := some 6 }
      (fun _ => shapeOf [2, 3]) (fun _ => shapeOf [2, 3]) 1 1 4 DataType.kFLOAT
      PluginFormat.kLINEAR [1, 4] (fun _ => 0) (fun _ => 0) 0 () (by decide) (by decide)).2.2.1⟩

/-! ### Creation from a parameter list -/

theorem createPlugin_eq (c : ClipPluginCreator) (e : Endian) (name : String)
    (fc : PluginFieldCollection) (u v : F32) :
    c.createPlugin e name fc u v =
      if fc.nbFields ≠ 2 then none
      else ((createPluginStep e fc.fields (u, v) 0).bind
              (fun acc => createPluginStep e fc.fields acc 1)).map
            (fun acc => ClipPlugin.new name acc.1 acc.2) := by
  unfold ClipPluginCreator.createPlugin
  by_cases h : fc.nbFields = 2
  · have hr : List.range (2 : Int).toNat = [0, 1] := by decide
    simp only [h, ne_eq, not_true_eq_false, if_false, hr, List.foldlM_cons, List.foldlM_nil]
    cases h0 : createPluginStep e fc.fields (u, v) 0 with
    | none => rfl
    | some acc0 =>
      simp only [Option.bind_eq_bind, Option.some_bind]
      cases h1 : createPluginStep e fc.fields acc0 1 with
      | none => rfl
      | some acc1 => rfl
  · simp [h]

theorem createPluginStep_eq_none (e : Endian) (fields : Ptr PluginField) (acc : F32 × F32)
    (i : Nat) :
    createPluginStep e fields acc i = none ↔
      (((fields i).name = "clipMin" ∨ (fields i).name = "clipMax") ∧
        (fields i).type ≠ PluginFieldType.kFLOAT32) := by
  unfold createPluginStep
  by_cases hmin : (fields i).name = "clipMin"
  · by_cases ht : (fields i).type = PluginFieldType.kFLOAT32 <;> simp [hmin, ht]
  · by_cases hmax : (fields i).name = "clipMax"
    · by_cases ht : (fields i).type = PluginFieldType.kFLOAT32 <;> simp [hmin, hmax, ht]
    · simp [hmin, hmax]

theorem createPluginStep_fst (e : Endian) (fields : Ptr PluginField) (acc r : F32 × F32)
    (i : Nat) (h : createPluginStep e fields acc i = some r)
    (hname : (fields i).name ≠ "clipMin") : r.1 = acc.1 := by
  unfold createPluginStep at h
  simp only [hname, if_false] at h
  split_ifs at h <;> simp only [Option.some.injEq] at h <;> rw [← h]

theorem createPluginStep_snd (e : Endian) (fields : Ptr PluginField) (acc r : F32 × F32)
    (i : Nat) (h : createPluginStep e fields acc i = some r)
    (hname : (fields i).name ≠ "clipMax") : r.2 = acc.2 := by
  unfold createPluginStep at h
  split_ifs at h <;> simp only [Option.some.injEq] at h <;> rw [← h]

/-- Claim C8: for every byte order, all patterns `a` and `b` and every content
of the uninitialised locals, `createPlugin` on the list
`[("clipMin", float32, a), ("clipMax", float32, b)]` and on the reversed list
both succeed with the plugin whose `mClipMin` is `a` and whose `mClipMax` is
`b`. -/
theorem C8_createPlugin_order_independent (c : ClipPluginCreator) (e : Endian) (name : String)
    (a b u v : F32) :
    c.createPlugin e name
        (fieldCollection [floatField e "clipMin" a, floatField e "clipMax" b]) u v
      = some (ClipPlugin.new name a b) ∧
    c.createPlugin e name
        (fieldCollection [floatField e "clipMax" b, floatField e "clipMin" a]) u v
      = some (ClipPlugin.new name a b) ∧
    (ClipPlugin.new name a b).mClipMin = a ∧ (ClipPlugin.new name a b).mClipMax = b := by
  have hne : ¬ ("clipMax" = "clipMin") := by decide
  have ha : F32.ofBytes e (floatData e a) = a := F32.ofBytes_objByte e a
  have hb : F32.ofBytes e (floatData e b) = b := F32.ofBytes_objByte e b
  refine ⟨?_, ?_, rfl, rfl⟩
  · rw [createPlugin_eq]
    simp [fieldCollection, vectorData, floatField, createPluginStep, hne, ha, hb]
  · rw [createPlugin_eq]
    simp [fieldCollection, vectorData, floatField, createPluginStep, hne, ha, hb]

/-- Claim C9: `createPlugin` fails exactly when `nbFields` is not 2 or one of
the two entries is named exactly "clipMin" or "clipMax" and has a declared
type other than `kFLOAT32`.  An entry with any other name leaves both locals
as they were, whatever its type (so two entries whose names differ from the
expected ones only in case give a plugin without failure), and when no entry
is named "clipMin" (resp. "clipMax") the bound of the plugin produced is the
indeterminate content `uninitMin` (resp. `uninitMax`) of the local that was
never assigned. -/
theorem C9_createPlugin_fails_iff (c : ClipPluginCreator) (e : Endian) (name : String)
    (fc : PluginFieldCollection) (uninitMin uninitMax : F32) :
    (c.createPlugin e name fc uninitMin uninitMax = none ↔
      (fc.nbFields ≠ 2 ∨
        ∃ i, i < 2 ∧ ((fc.fields i).name = "clipMin" ∨ (fc.fields i).name = "clipMax") ∧
          (fc.fields i).type ≠ PluginFieldType.kFLOAT32)) ∧
    (∀ (i : Nat) (acc : F32 × F32), (fc.fields i).name ≠ "clipMin" →
      (fc.fields i).name ≠ "clipMax" → createPluginStep e fc.fields acc i = some acc) ∧
    (∀ (t1 t2 : PluginFieldType) (d1 d2 : Ptr Byte) (l1 l2 : Int),
      c.createPlugin e name
          (fieldCollection [{ name := "ClipMin", data := d1, type := t1, length := l1 },
                            { name := "CLIPMAX", data := d2, type := t2, length := l2 }])
          uninitMin uninitMax
        = some (ClipPlugin.new name uninitMin uninitMax)) ∧
    (∀ q, c.createPlugin e name fc uninitMin uninitMax = some q →
      ((∀ i, i < 2 → (fc.fields i).name ≠ "clipMin") → q.mClipMin = uninitMin) ∧
      ((∀ i, i < 2 → (fc.fields i).name ≠ "clipMax") → q.mClipMax = uninitMax)) := by
  refine ⟨?_, ?_, ?_, ?_⟩
  · rw [createPlugin_eq]
    by_cases h : fc.nbFields = 2
    · simp only [h, ne_eq, not_true_eq_false, if_false, false_or, Option.map_eq_none']
      constructor
      · intro hnone
        cases h0 : createPluginStep e fc.fields (uninitMin, uninitMax) 0 with
        | none => exact ⟨0, by decide, (createPluginStep_eq_none e _ _ 0).mp h0⟩
        | some acc0 =>
          rw [h0] at hnone
          exact ⟨1, by decide, (createPluginStep_eq_none e _ _ 1).mp hnone⟩
      · rintro ⟨i, hi, hbad⟩
        have hi01 : i = 0 ∨ i = 1 := by omega
        cases h0 : createPluginStep e fc.fields (uninitMin, uninitMax) 0 with
        | none => rfl
        | some acc0 =>
          rcases hi01 with rfl | rfl
          · rw [(createPluginStep_eq_none e _ _ 0).mpr hbad] at h0
            exact absurd h0 (by simp)
          · exact (createPluginStep_eq_none e _ _ 1).mpr hbad
    · simp [h]
  · intro i acc h1 h2
    simp [createPluginStep, h1, h2]
  · intro t1 t2 d1 d2 l1 l2
    have h1 : ¬ ("ClipMin" = "clipMin") := by decide
    have h2 : ¬ ("ClipMin" = "clipMax") := by decide
    have h3 : ¬ ("CLIPMAX" = "clipMin") := by decide
    have h4 : ¬ ("CLIPMAX" = "clipMax") := by decide
    rw [createPlugin_eq]
    simp [fieldCollection, vectorData, createPluginStep, h1, h2, h3, h4]
  · intro q hq
    rw [createPlugin_eq] at hq
    by_cases h : fc.nbFields = 2
    · simp only [h, ne_eq, not_true_eq_false, if_false] at hq
      cases h0 : createPluginStep e fc.fields (uninitMin, uninitMax) 0 with
      | none => rw [h0] at hq; exact absurd hq (by simp)
      | some acc0 =>
        rw [h0] at hq
        cases h1 : createPluginStep e fc.fields acc0 1 with
        | none => simp [h1] at hq
        | some acc1 =>
          simp only [Option.some_bind, h1, Option.map_some', Option.some.injEq] at hq
          subst hq
          constructor
          · intro hn
            show acc1.1 = uninitMin
            rw [createPluginStep_fst e _ _ _ 1 h1 (hn 1 (by decide)),
              createPluginStep_fst e _ _ _ 0 h0 (hn 0 (by decide))]
          · intro hn
            show acc1.2 = uninitMax
            rw [createPluginStep_snd e _ _ _ 1 h1 (hn 1 (by decide)),
              createPluginStep_snd e _ _ _ 0 h0 (hn 0 (by decide))]
    · simp [h] at hq

/-! ### Output shape -/

/-- Claim C10: `getOutputDimensions` with `index = 0` and `nbInputDims = 1`
returns the first input shape unchanged, for every shape (in particular every
rank from 1 to 8); it fails (an assertion fails) exactly when
`nbInputDims ≠ 1` or `index ≠ 0`; and `getNbOutputs` is 1 for every plugin. -/
theorem C10_output_dimensions (p : ClipPlugin) (index nbInputDims : Int) (inputs : Ptr Dims) :
    p.getOutputDimensions 0 inputs 1 = some (inputs 0) ∧
    p.getOutputDimensions index inputs nbInputDims =
      (if nbInputDims = 1 ∧ index = 0 then some (inputs 0) else none) ∧
    (p.getOutputDimensions index inputs nbInputDims = none ↔ (nbInputDims ≠ 1 ∨ index ≠ 0)) ∧
    p.getNbOutputs = 1 := by
  refine ⟨rfl, ?_, ?_, rfl⟩
  · unfold ClipPlugin.getOutputDimensions
    by_cases h1 : nbInputDims = 1 <;> by_cases h2 : index = 0 <;> simp [h1, h2]
  · unfold ClipPlugin.getOutputDimensions
    by_cases h1 : nbInputDims = 1 <;> by_cases h2 : index = 0 <;> simp [h1, h2]

/-! ### Format negotiation and configuration -/

/-- Claim C11: `supportsFormat` is `true` exactly when the data type is
`kFLOAT` and the format is `kLINEAR`, it is `false` for every other
combination, and its answer is the same for any two plugins, whatever their
bounds, volume and namespace. -/
theorem C11_supportsFormat_iff_float_linear (p q : ClipPlugin) (type : DataType)
    (format : PluginFormat) :
    (p.supportsFormat type format = true ↔
      (type = DataType.kFLOAT ∧ format = PluginFormat.kLINEAR)) ∧
    (p.supportsFormat type format = false ↔
      ¬ (type = DataType.kFLOAT ∧ format = PluginFormat.kLINEAR)) ∧
    p.supportsFormat type format = q.supportsFormat type format := by
  refine ⟨?_, ?_, rfl⟩
  · unfold ClipPlugin.supportsFormat
    by_cases h : type = DataType.kFLOAT ∧ format = PluginFormat.kLINEAR <;> simp [h]
  · unfold ClipPlugin.supportsFormat
    by_cases h : type = DataType.kFLOAT ∧ format = PluginFormat.kLINEAR <;> simp [h]

theorem configureWithFormat_eq_at (p : ClipPlugin) (inputs outputs : Ptr Dims)
    (nbInputs nbOutputs maxBatchSize : Int) (type : DataType) (format : PluginFormat) :
    p.configureWithFormat inputs nbInputs outputs nbOutputs type format maxBatchSize =
      if (p.configureWithFormatAt inputs nbInputs outputs nbOutputs type format maxBatchSize).1
      then some
        (p.configureWithFormatAt inputs nbInputs outputs nbOutputs type format maxBatchSize).2
      else none := by
  unfold ClipPlugin.configureWithFormat ClipPlugin.configureWithFormatAt
  by_cases h1 : nbOutputs = 1 <;> by_cases h2 : type = DataType.kFLOAT <;>
    by_cases h3 : format = PluginFormat.kLINEAR <;> simp [h1, h2, h3]

theorem configureWithFormatAt_fst (p : ClipPlugin) (inputs outputs : Ptr Dims)
    (nbInputs nbOutputs maxBatchSize : Int) (type : DataType) (format : PluginFormat) :
    (p.configureWithFormatAt inputs nbInputs outputs nbOutputs type format maxBatchSize).1 =
      (decide (nbOutputs = 1) && p.supportsFormat type format) := by
  unfold ClipPlugin.configureWithFormatAt ClipPlugin.supportsFormat
  by_cases h1 : nbOutputs = 1 <;> by_cases h2 : type = DataType.kFLOAT <;>
    by_cases h3 : format = PluginFormat.kLINEAR <;> simp [h1, h2, h3]

theorem configureWithFormatAt_snd (p : ClipPlugin) (inputs outputs : Ptr Dims)
    (nbInputs nbOutputs maxBatchSize : Int) (type : DataType) (format : PluginFormat) :
    (p.configureWithFormatAt inputs nbInputs outputs nbOutputs type format maxBatchSize).2 =
      if (p.configureWithFormatAt inputs nbInputs outputs nbOutputs type format maxBatchSize).1
      then { p with mInputVolume := some (inputVolume (inputs 0)) } else p := by
  unfold ClipPlugin.configureWithFormatAt
  by_cases h1 : nbOutputs = 1 <;> by_cases h2 : type = DataType.kFLOAT <;>
    by_cases h3 : format = PluginFormat.kLINEAR <;> simp [h1, h2, h3]

/-- Claim C12: `configureWithFormat` returns (no assertion fails) exactly when
`nbOutputs` is 1 and `supportsFormat(type, format)` is `true`; when a call is
rejected the plugin is, at the failed assertion, exactly as it was before the
call, so `mInputVolume` and the bounds are unchanged. -/
theorem C12_configure_accepted_iff (p : ClipPlugin) (inputs outputs : Ptr Dims)
    (nbInputs nbOutputs maxBatchSize : Int) (type : DataType) (format : PluginFormat) :
    ((p.configureWithFormat inputs nbInputs outputs nbOutputs type format maxBatchSize).isSome
      ↔ (nbOutputs = 1 ∧ p.supportsFormat type format = true)) ∧
    ((p.configureWithFormat inputs nbInputs outputs nbOutputs type format maxBatchSize).isSome
      ↔ (nbOutputs = 1 ∧ type = DataType.kFLOAT ∧ format = PluginFormat.kLINEAR)) ∧
    p.configureWithFormatAt inputs nbInputs outputs nbOutputs type format maxBatchSize =
      (if nbOutputs = 1 ∧ p.supportsFormat type format = true
       then (true, { p with mInputVolume := some (inputVolume (inputs 0)) })
       else (false, p)) ∧
    p.configureWithFormat inputs nbInputs outputs nbOutputs type format maxBatchSize =
      (if (p.configureWithFormatAt inputs nbInputs outputs nbOutputs type format
            maxBatchSize).1
       then some
         (p.configureWithFormatAt inputs nbInputs outputs nbOutputs type format maxBatchSize).2
       else none) := by
  refine ⟨?_, ?_, ?_, configureWithFormat_eq_at p inputs outputs nbInputs nbOutputs
    maxBatchSize type format⟩
  · unfold ClipPlugin.configureWithFormat ClipPlugin.supportsFormat
    by_cases h1 : nbOutputs = 1 <;> by_cases h2 : type = DataType.kFLOAT <;>
      by_cases h3 : format = PluginFormat.kLINEAR <;> simp [h1, h2, h3]
  · unfold ClipPlugin.configureWithFormat
    by_cases h1 : nbOutputs = 1 <;> by_cases h2 : type = DataType.kFLOAT <;>
      by_cases h3 : format = PluginFormat.kLINEAR <;> simp [h1, h2, h3]
  · unfold ClipPlugin.configureWithFormatAt ClipPlugin.supportsFormat
    by_cases h1 : nbOutputs = 1 <;> by_cases h2 : type = DataType.kFLOAT <;>
      by_cases h3 : format = PluginFormat.kLINEAR <;> simp [h1, h2, h3]

/-- Counterexample to C13 as stated: on the plugin `ClipPlugin("clip", 0, 1)`,
never configured, `enqueue` with batch size 4 returns the status 0 of the
kernel and the kernel has received one call, whose element count comes from
the unassigned `mInputVolume`. -/
theorem C13_unconfigured_enqueue_counterexample :
    (ClipPlugin.new "clip" 0 1).mInputVolume = none ∧
    ((ClipPlugin.new "clip" 0 1).enqueue (recording (fun _ (u : Unit) => ((0 : Int), u)))
        4 (fun _ => 0) (fun _ => 0) 0 0 ([], ())).1 = 0 ∧
    ((ClipPlugin.new "clip" 0 1).enqueue (recording (fun _ (u : Unit) => ((0 : Int), u)))
        4 (fun _ => 0) (fun _ => 0) 0 0 ([], ())).2.2.1 =
      [{ stream := 0, n := none, clipMin := 0, clipMax := 1, input := 0, output := 0 }] := by
  refine ⟨rfl, by decide, by decide⟩

/-- Claim C13 as amended: on a plugin that has never been configured
(`mInputVolume` unassigned) `enqueue` is not rejected and reports no failure
of its own: it calls the kernel exactly once, with the element count derived
from the unassigned `mInputVolume` (indeterminate, `none`) and the other
arguments as for a configured plugin, and returns the status of the kernel
unchanged. -/
theorem C13_unconfigured_enqueue_calls_kernel {σ : Type} (K : Kernel σ) (p : ClipPlugin)
    (batchSize : Int) (inputs outputs : Ptr Nat) (workspace stream : Nat) (dev : σ)
    (log : List KernelArgs) (hunconf : p.mInputVolume = none) :
    (p.enqueue (recording K) batchSize inputs outputs workspace stream (log, dev)).2.2.1 =
      log ++ [{ stream := stream, n := none, clipMin := p.mClipMin, clipMax := p.mClipMax,
                input := inputs 0, output := outputs 0 }] ∧
    (p.enqueue K batchSize inputs outputs workspace stream dev).1 =
      (K { stream := stream, n := none, clipMin := p.mClipMin, clipMax := p.mClipMax,
           input := inputs 0, output := outputs 0 } dev).1 ∧
    (p.enqueue K batchSize inputs outputs workspace stream dev).2.1 = p := by
  simp [ClipPlugin.enqueue, recording, hunconf]

/-- Witness of C13 as amended: the plugin `ClipPlugin("clip", 0, 1)` with a
kernel that returns the status 7. -/
theorem C13_unconfigured_enqueue_calls_kernel_witness :
    (ClipPlugin.new "clip" 0 1).mInputVolume = none ∧
    ((ClipPlugin.new "clip" 0 1).enqueue (fun _ (u : Unit) => ((7 : Int), u))
        4 (fun _ => 0) (fun _ => 0) 0 0 ()).1 =
      ((fun _ (u : Unit) => ((7 : Int), u) : Kernel Unit)
        { stream := 0, n := none, clipMin := (ClipPlugin.new "clip" 0 1).mClipMin,
          clipMax := (ClipPlugin.new "clip" 0 1).mClipMax,
          input := (fun _ => 0 : Ptr Nat) 0, output := (fun _ => 0 : Ptr Nat) 0 } ()).1 :=
  ⟨rfl,
   (C13_unconfigured_enqueue_calls_kernel (fun _ (u : Unit) => ((7 : Int), u))
      (ClipPlugin.new "clip" 0 1) 4 (fun _ => 0) (fun _ => 0) 0 0 () [] rfl).2.1⟩

/-! ### Clone -/

/-- Claim C14: for every plugin, `clone` gives a plugin with the same layer
name, the same `mClipMin` and `mClipMax` and the same namespace as the
original, whose `mInputVolume` is unassigned whatever the volume of the
original; `clone` is a `const` method, so the original is as it was. -/
theorem C14_clone_copies_bounds_not_volume {σ : Type} (K : Kernel σ) (p : ClipPlugin)
    (dev : σ) (v : Nat) :
    p.clone.mLayerName = p.mLayerName ∧
    p.clone.mClipMin = p.mClipMin ∧
    p.clone.mClipMax = p.mClipMax ∧
    p.clone.mNamespace = p.mNamespace ∧
    p.clone.mInputVolume = none ∧
    ({ p with mInputVolume := some v } : ClipPlugin).clone.mInputVolume = none ∧
    ({ p with mInputVolume := some v } : ClipPlugin).clone = p.clone ∧
    applyOp K (p, dev) Op.clone = (true, (p, dev)) := by
  exact ⟨rfl, rfl, rfl, rfl, rfl, rfl, rfl, rfl⟩

/-! ### The creator -/

theorem staticsAfter_nbFields (n : Nat) :
    (staticsAfter n).mFC.nbFields = ((staticsAfter n).mPluginAttributes.length : Int) ∧
    (staticsAfter n).mPluginAttributes.length = 2 * n := by
  induction n with
  | zero => exact ⟨rfl, rfl⟩
  | succ n ih =>
    refine ⟨rfl, ?_⟩
    simp only [staticsAfter, ClipPluginCreator.new, List.length_append, List.length_cons,
      List.length_nil, ih.2]
    omega

/-- Claim C15, evaluated on the code: after the first construction of a
`ClipPluginCreator` `getFieldNames` reports the two descriptors
`("clipMin", kFLOAT32, 1)` and `("clipMax", kFLOAT32, 1)`, but the constructor
appends to the shared static vector, so after a second construction
`getFieldNames` reports `nbFields = 4` (the two descriptors twice), and after
`n` constructions `2 * n`. -/
theorem C15_second_creator_doubles_descriptors :
    ((ClipPluginCreator.new (staticsAfter 0)).1.getFieldNames (staticsAfter 1)).nbFields = 2 ∧
    (staticsAfter 1).mPluginAttributes.map PluginField.descriptor =
      [("clipMin", PluginFieldType.kFLOAT32, 1), ("clipMax", PluginFieldType.kFLOAT32, 1)] ∧
    ((ClipPluginCreator.new (staticsAfter 1)).1.getFieldNames (staticsAfter 2)).nbFields = 4 ∧
    ((ClipPluginCreator.new (staticsAfter 0)).1.getFieldNames (staticsAfter 2)).nbFields = 4 ∧
    (List.range 4).map
        (fun i => (((ClipPluginCreator.new (staticsAfter 1)).1.getFieldNames
          (staticsAfter 2)).fields i).descriptor) =
      [("clipMin", PluginFieldType.kFLOAT32, 1), ("clipMax", PluginFieldType.kFLOAT32, 1),
       ("clipMin", PluginFieldType.kFLOAT32, 1), ("clipMax", PluginFieldType.kFLOAT32, 1)] ∧
    (∀ n, (staticsAfter n).mFC.nbFields = 2 * (n : Int)) := by
  refine ⟨by decide, by decide, by decide, by decide, by decide, ?_⟩
  intro n
  rw [(staticsAfter_nbFields n).1, (staticsAfter_nbFields n).2]
  push_cast
  rfl

/-- Counterexample to C16 as stated: the name a creator reports is not
"CustomClipOperator". -/
theorem C16_plugin_name_counterexample :
    (ClipPluginCreator.new CreatorStatics.init).1.getPluginName ≠ "CustomClipOperator" := by
  decide

/-- Claim C16 as amended: for every creator `getPluginName` is the string
"CustomClipPlugin" and `getPluginVersion` is the string "1"; neither depends
on the state of the creator. -/
theorem C16_plugin_name_and_version (c c2 : ClipPluginCreator) :
    c.getPluginName = "CustomClipPlugin" ∧ c.getPluginVersion = "1" ∧
    c.getPluginName = c2.getPluginName ∧ c.getPluginVersion = c2.getPluginVersion := by
  exact ⟨rfl, rfl, rfl, rfl⟩

/-! ### Invariants of the plugin state -/

theorem applyOp_fixed {σ : Type} (K : Kernel σ) (st : ClipPlugin × σ) (op : Op) :
    (applyOp K st op).2.1.mClipMin = st.1.mClipMin ∧
    (applyOp K st op).2.1.mClipMax = st.1.mClipMax ∧
    (applyOp K st op).2.1.mLayerName = st.1.mLayerName := by
  cases op with
  | configure inputs nbInputs outputs nbOutputs type format maxBatchSize =>
    simp only [applyOp]
    rw [configureWithFormatAt_snd]
    split_ifs <;> exact ⟨rfl, rfl, rfl⟩
  | execute batchSize inputs outputs workspace stream => exact ⟨rfl, rfl, rfl⟩
  | serialize e buffer => exact ⟨rfl, rfl, rfl⟩
  | getSerializationSize => exact ⟨rfl, rfl, rfl⟩
  | supportsFormat type format => exact ⟨rfl, rfl, rfl⟩
  | getOutputDimensions index inputs nbInputDims => exact ⟨rfl, rfl, rfl⟩
  | clone => exact ⟨rfl, rfl, rfl⟩
  | setPluginNamespace libNamespace => exact ⟨rfl, rfl, rfl⟩
  | getPluginNamespace => exact ⟨rfl, rfl, rfl⟩

theorem runOps_fixed {σ : Type} (K : Kernel σ) (st : ClipPlugin × σ) (ops : List Op) :
    (runOps K st ops).2.1.mClipMin = st.1.mClipMin ∧
    (runOps K st ops).2.1.mClipMax = st.1.mClipMax ∧
    (runOps K st ops).2.1.mLayerName = st.1.mLayerName := by
  induction ops generalizing st with
  | nil => exact ⟨rfl, rfl, rfl⟩
  | cons op rest ih =>
    have hop := applyOp_fixed K st op
    simp only [runOps]
    split_ifs with h
    · have hrest := ih (applyOp K st op).2
      exact ⟨hrest.1.trans hop.1, hrest.2.1.trans hop.2.1, hrest.2.2.trans hop.2.2⟩
    · exact hop

/-- Claim C17: for every plugin, kernel and sequence of the calls
`configureWithFormat`, `enqueue`, `serialize`, `getSerializationSize`,
`supportsFormat`, `getOutputDimensions`, `clone`, `setPluginNamespace` and
`getPluginNamespace`, with any arguments, the plugin where the run stops
(after the last call, or at the first failed assertion) has the `mClipMin`
and `mClipMax` it started with, so those given at construction;
`configureWithFormat` changes only `mInputVolume`, `setPluginNamespace` only
`mNamespace`, and `enqueue` no field. -/
theorem C17_bounds_fixed_at_construction {σ : Type} (K : Kernel σ) (p : ClipPlugin) (dev : σ)
    (ops : List Op) (name libNamespace : String) (a b : F32) (inputs outputs : Ptr Dims)
    (nbInputs nbOutputs maxBatchSize batchSize : Int) (type : DataType) (format : PluginFormat)
    (ins outs : Ptr Nat) (workspace stream : Nat) :
    (runOps K (p, dev) ops).2.1.mClipMin = p.mClipMin ∧
    (runOps K (p, dev) ops).2.1.mClipMax = p.mClipMax ∧
    (runOps K (ClipPlugin.new name a b, dev) ops).2.1.mClipMin = a ∧
    (runOps K (ClipPlugin.new name a b, dev) ops).2.1.mClipMax = b ∧
    (p.configureWithFormatAt inputs nbInputs outputs nbOutputs type format maxBatchSize).2 =
      { p with mInputVolume :=
          (p.configureWithFormatAt inputs nbInputs outputs nbOutputs type format
            maxBatchSize).2.mInputVolume } ∧
    p.setPluginNamespace libNamespace = { p with mNamespace := libNamespace } ∧
    (p.enqueue K batchSize ins outs workspace stream dev).2.1 = p := by
  refine ⟨(runOps_fixed K (p, dev) ops).1, (runOps_fixed K (p, dev) ops).2.1,
    (runOps_fixed K (ClipPlugin.new name a b, dev) ops).1,
    (runOps_fixed K (ClipPlugin.new name a b, dev) ops).2.1, ?_, rfl, rfl⟩
  rw [configureWithFormatAt_snd]
  split_ifs <;> rfl

theorem ofBytes_serialized (e : Endian) (a b : F32) (buffer : Ptr Byte) :
    F32.ofBytes e (fun i => if 4 ≤ i ∧ i < 8 then b.objByte e (i - 4)
      else if i < 4 then a.objByte e i else buffer i) = a ∧
    F32.ofBytes e (fun k => (fun i => if 4 ≤ i ∧ i < 8 then b.objByte e (i - 4)
      else if i < 4 then a.objByte e i else buffer i) (4 + k)) = b := by
  constructor
  · apply F32.ofBytes_of_objByte
    intro k hk
    have : ¬ (4 ≤ k ∧ k < 8) := by omega
    simp [this, hk]
  · apply F32.ofBytes_of_objByte
    intro k hk
    have : 4 ≤ 4 + k ∧ 4 + k < 8 := by omega
    simp [this]

/-- Claim C18: two plugins with equal `mClipMin` and equal `mClipMax` write the
same 8 bytes, whatever their layer names, namespaces and volumes and whatever
the buffers held (on the same buffer the whole results coincide), and the
plugin that `deserializePlugin` builds from those bytes has the bounds, an
empty namespace and an unassigned `mInputVolume`. -/
theorem C18_serialized_form_depends_on_bounds_only (e : Endian) (c : ClipPluginCreator)
    (p q : ClipPlugin) (buffer1 buffer2 : Ptr Byte) (name : String)
    (hmin : p.mClipMin = q.mClipMin) (hmax : p.mClipMax = q.mClipMax) :
    ∃ m1 m2 r, p.serialize e buffer1 = some (m1, 8) ∧ q.serialize e buffer2 = some (m2, 8) ∧
      (∀ k, k < 8 → m1 k = m2 k) ∧
      p.serialize e buffer1 = q.serialize e buffer1 ∧
      c.deserializePlugin e name m1 8 = some r ∧
      r.mClipMin = p.mClipMin ∧ r.mClipMax = p.mClipMax ∧
      r.mNamespace = "" ∧ r.mInputVolume = none := by
  refine ⟨_, _, ClipPlugin.new name p.mClipMin p.mClipMax, serialize_eq e p buffer1,
    serialize_eq e q buffer2, ?_, ?_, ?_, rfl, rfl, rfl, rfl⟩
  · intro k hk
    by_cases h1 : 4 ≤ k ∧ k < 8
    · simp [h1, hmax]
    · have h2 : k < 4 := by omega
      simp [h1, h2, hmin]
  · rw [serialize_eq, serialize_eq, hmin, hmax]
  · simp only [ClipPluginCreator.deserializePlugin, newFromData_eq, if_true, ClipPlugin.new]
    rw [(ofBytes_serialized e p.mClipMin p.mClipMax buffer1).1,
      (ofBytes_serialized e p.mClipMin p.mClipMax buffer1).2]

/-- Witness of C18: a configured plugin with a namespace and a fresh plugin
with another name, both with the bounds 1 and 2. -/
theorem C18_serialized_form_depends_on_bounds_only_witness :
    ({ mLayerName := "a", mClipMin := 1, mClipMax := 2, mInputVolume := some 6,
       mNamespace := "ns" } : ClipPlugin).mClipMin = (ClipPlugin.new "b" 1 2).mClipMin ∧
    ({ mLayerName := "a", mClipMin := 1, mClipMax := 2, mInputVolume := some 6,
       mNamespace := "ns" } : ClipPlugin).mClipMax = (ClipPlugin.new "b" 1 2).mClipMax ∧
    ∃ m1 m2 r,
      ({ mLayerName := "a", mClipMin := 1, mClipMax := 2, mInputVolume := some 6,
         mNamespace := "ns" } : ClipPlugin).serialize Endian.little (fun _ => 0) = some (m1, 8) ∧
      (ClipPlugin.new "b" 1 2).serialize Endian.little (fun _ => 255) = some (m2, 8) ∧
      (∀ k, k < 8 → m1 k = m2 k) ∧
      ({ mLayerName := "a", mClipMin := 1, mClipMax := 2, mInputVolume := some 6,
         mNamespace := "ns" } : ClipPlugin).serialize Endian.little (fun _ => 0) =
        (ClipPlugin.new "b" 1 2).serialize Endian.little (fun _ => 0) ∧
      ({ mNamespace := "" } : ClipPluginCreator).deserializePlugin Endian.little "c" m1 8
        = some r ∧
      r.mClipMin = 1 ∧ r.mClipMax = 2 ∧ r.mNamespace = "" ∧ r.mInputVolume = none :=
  ⟨rfl, rfl,
   C18_serialized_form_depends_on_bounds_only Endian.little { mNamespace := "" }
     { mLayerName := "a", mClipMin := 1, mClipMax := 2, mInputVolume := some 6,
       mNamespace := "ns" }
     (ClipPlugin.new "b" 1 2) (fun _ => 0) (fun _ => 255) "c" rfl rfl⟩

/-- Claim C19: every plugin reports the type name and the version that every
creator reports: `getPluginType` equals `getPluginName` and the two
`getPluginVersion` agree, for every plugin and every creator. -/
theorem C19_plugin_and_creator_identity_agree (p : ClipPlugin) (c : ClipPluginCreator) :
    p.getPluginType = c.getPluginName ∧ p.getPluginVersion = c.getPluginVersion ∧
    p.getPluginType = CLIP_PLUGIN_NAME ∧ p.getPluginVersion = CLIP_PLUGIN_VERSION := by
  exact ⟨rfl, rfl, rfl, rfl⟩

/-- Claim C20: for every plugin and every pair of calls whose preconditions
hold, `configureWithFormat` with a first shape followed by
`configureWithFormat` with a second shape gives the result of the second call
alone; when the second shape has non-negative extents whose product is below
`2 ^ 64`, the volume left is that product; and configuring twice with the
same shape gives the result of configuring once. -/
theorem C20_configure_overwrites (p : ClipPlugin) (inputs1 inputs2 outputs1 outputs2 : Ptr Dims)
    (nbInputs1 nbInputs2 maxBatch1 maxBatch2 : Int)
    (hnonneg : ∀ i, i < (inputs2 0).nbDims.toNat → 0 ≤ (inputs2 0).d i)
    (hfits : dimsProduct (inputs2 0) < (SIZE_MAX1 : Int)) :
    (p.configureWithFormat inputs1 nbInputs1 outputs1 1 DataType.kFLOAT PluginFormat.kLINEAR
        maxBatch1).bind
      (fun q => q.configureWithFormat inputs2 nbInputs2 outputs2 1 DataType.kFLOAT
        PluginFormat.kLINEAR maxBatch2)
      = p.configureWithFormat inputs2 nbInputs2 outputs2 1 DataType.kFLOAT PluginFormat.kLINEAR
          maxBatch2 ∧
    p.configureWithFormat inputs2 nbInputs2 outputs2 1 DataType.kFLOAT PluginFormat.kLINEAR
        maxBatch2
      = some { p with mInputVolume := some (dimsProduct (inputs2 0)).toNat } ∧
    (p.configureWithFormat inputs2 nbInputs2 outputs2 1 DataType.kFLOAT PluginFormat.kLINEAR
        maxBatch2).bind
      (fun q => q.configureWithFormat inputs2 nbInputs2 outputs2 1 DataType.kFLOAT
        PluginFormat.kLINEAR maxBatch2)
      = p.configureWithFormat inputs2 nbInputs2 outputs2 1 DataType.kFLOAT PluginFormat.kLINEAR
          maxBatch2 := by
  refine ⟨?_, ?_, ?_⟩
  · simp [ClipPlugin.configureWithFormat]
  · simp [ClipPlugin.configureWithFormat, inputVolume_eq_product (inputs2 0) hnonneg hfits]
  · simp [ClipPlugin.configureWithFormat]

/-- Witness of C20: the shape `[2, 3]` followed by the shape `[4, 5]` leaves
the volume 20. -/
theorem C20_configure_overwrites_witness :
    (∀ i, i < (shapeOf [4, 5]).nbDims.toNat → 0 ≤ (shapeOf [4, 5]).d i) ∧
    dimsProduct (shapeOf [4, 5]) < (SIZE_MAX1 : Int) ∧
    dimsProduct (shapeOf [4, 5]) = 20 ∧
    ((ClipPlugin.new "clip" 0 1).configureWithFormat (fun _ => shapeOf [2, 3]) 1
        (fun _ => shapeOf [2, 3]) 1 DataType.kFLOAT PluginFormat.kLINEAR 8).bind
      (fun q => q.configureWithFormat (fun _ => shapeOf [4, 5]) 1 (fun _ => shapeOf [4, 5]) 1
        DataType.kFLOAT PluginFormat.kLINEAR 8)
      = (ClipPlugin.new "clip" 0 1).configureWithFormat (fun _ => shapeOf [4, 5]) 1
          (fun _ => shapeOf [4, 5]) 1 DataType.kFLOAT PluginFormat.kLINEAR 8 :=
  ⟨by decide, by decide, by decide,
   (C20_configure_overwrites (ClipPlugin.new "clip" 0 1) (fun _ => shapeOf [2, 3])
      (fun _ => shapeOf [4, 5]) (fun _ => shapeOf [2, 3]) (fun _ => shapeOf [4, 5]) 1 1 8 8
      (by decide) (by decide)).1⟩

end ClipPluginModel
